import Mathlib

/-!
Verification of the data-validation engine of the networksecurity repository.

The definitions below are a shallow embedding of
networksecurity/components/data_validation.py together with the parts of its
collaborators that the theorems need: the exception model of
networksecurity/exception/exception.py, a model of the pandas CSV
read/write fragment the code exercises, and an abstract interface for the
external scipy.stats.ks_2samp routine. File system reads are modelled as a
function from path to optional file bytes; file writes are modelled as an
explicit list of (path, content) pairs produced by a run.
-/

deriving instance DecidableEq for Except

namespace NetSec

/-- A scalar cell value of a table: in the fragment modelled here a pandas
cell is either a (nonnegative) number or a string. -/
inductive Value where
  | num : Nat → Value
  | str : String → Value
deriving DecidableEq

/-- A pandas DataFrame: an ordered sequence of named columns, each an ordered
list of cell values sharing a row count. -/
structure DataFrame where
  cols : List (String × List Value)
deriving DecidableEq

/-- Column labels of a DataFrame, in order (pandas dataframe.columns). -/
def DataFrame.columnNames (df : DataFrame) : List String :=
  df.cols.map Prod.fst

/-- Column lookup, as pandas bracket indexing on a DataFrame whose labels are
unique: the values of the first column carrying the label, if any. -/
def DataFrame.col? (df : DataFrame) (name : String) : Option (List Value) :=
  (df.cols.find? (fun p => p.1 == name)).map Prod.snd

/-- The parsed schema YAML document: it may or may not carry a top-level
columns mapping from column name to a declared type tag. -/
structure SchemaConfig where
  columns : Option (List (String × String))
deriving DecidableEq

/-- Python exception values relevant to the validator.
NetworkSecurityException wraps its error_message, which in this code is always
another exception (exception.py). DriftComputationError is the error kind
named by the spec; it occurs nowhere in the source and is included so that its
absence is statable. The exception constructor stands for a plain
Exception(message). -/
inductive PyError where
  | networkSecurityException : PyError → PyError
  | driftComputationError : String → PyError
  | keyError : String → PyError
  | valueError : String → PyError
  | fileNotFoundError : String → PyError
  | parserError : String → PyError
  | exception : String → PyError
deriving DecidableEq

/-- One drift-report record, as built per column by detect_dataset_drift. -/
structure DriftEntry where
  p_value : ℚ
  drift_status : Bool
deriving DecidableEq

/-- Contents written to a file path during a run: the YAML drift report or a
CSV table. -/
inductive FileContent where
  | yamlReport : List (String × DriftEntry) → FileContent
  | csvFile : String → FileContent
deriving DecidableEq

/-- The DataValidationConfig fields used by the component. -/
structure DataValidationConfig where
  drift_report_file_path : String
  valid_train_file_path : String
  valid_test_file_path : String
deriving DecidableEq

/-- The DataIngestionArtifacts fields used by the component. -/
structure DataIngestionArtifacts where
  trained_file_path : String
  test_file_path : String
deriving DecidableEq

/-- The DataValidationArtifacts record assembled at the end of a run. -/
structure DataValidationArtifacts where
  validation_status : Bool
  valid_train_file_path : String
  valid_test_file_path : String
  invalid_train_file_path : Option String
  invalid_test_file_path : Option String
  drift_report_file_path : String
deriving DecidableEq

/-- Split a character list at every occurrence of the separator. -/
def splitOnChar (sep : Char) : List Char → List (List Char)
  | [] => [[]]
  | c :: cs =>
    let r := splitOnChar sep cs
    if c = sep then [] :: r
    else
      match r with
      | [] => [[c]]
      | g :: gs => (c :: g) :: gs

/-- Numeric value of a list of decimal digit characters. -/
def digitsToNat (cs : List Char) : Nat :=
  cs.foldl (fun n c => 10 * n + (c.toNat - 48)) 0

/-- Parse one CSV cell the way pandas read_csv does on the fragment modelled
here: a cell wrapped in double quotes is unquoted first; a nonempty all-digit
cell is read as a number, anything else as a string. Cells containing escaped
embedded quotes are outside the modelled fragment. -/
def parseCellChars (cs : List Char) : Value :=
  let t :=
    match cs with
    | '"' :: rest =>
      if rest ≠ [] ∧ rest.getLast? = some '"' then rest.dropLast else cs
    | _ => cs
  if t ≠ [] ∧ t.all Char.isDigit then Value.num (digitsToNat t) else Value.str (String.mk t)

/-- Drop one trailing newline, which pandas read_csv tolerates at end of file. -/
def dropTrailingNewline (cs : List Char) : List Char :=
  if cs.getLast? = some '\n' then cs.dropLast else cs

/-- Model of pandas read_csv on the fragment exercised here: the first line is
the header of column labels, each following line a comma-separated row; the
read fails on an empty document and on a row whose field count differs from
the header. Separators nested inside quoted fields are outside the modelled
fragment. -/
def readCsv (s : String) : Option DataFrame :=
  if s.data = [] then none
  else
    match splitOnChar '\n' (dropTrailingNewline s.data) with
    | [] => none
    | header :: rows =>
      let names := (splitOnChar ',' header).map String.mk
      let cells := rows.map (fun r => (splitOnChar ',' r).map parseCellChars)
      if cells.all (fun r => r.length = names.length) then
        some ⟨names.enum.map (fun p => (p.2, cells.map (fun r => r.getD p.1 (Value.str ""))))⟩
      else none

/-- Render one cell the way pandas to_csv does with its default QUOTE_MINIMAL
quoting: numbers as decimal digits, strings bare unless they contain a
separator, a quote or a newline. -/
def renderValue : Value → List Char
  | .num n => Nat.toDigits 10 n
  | .str s =>
    if s.data.any (fun c => c == ',' || c == '"' || c == '\n') then
      '"' :: (s.data ++ ['"'])
    else s.data

/-- Join character lists with a separator character. -/
def joinChar (sep : Char) : List (List Char) → List Char
  | [] => []
  | [g] => g
  | g :: g2 :: gs => g ++ sep :: joinChar sep (g2 :: gs)

/-- Model of DataFrame.to_csv with index=False, header=True: a comma-separated
header line, then one comma-separated line per row, the output terminated by a
newline. -/
def toCsv (df : DataFrame) : String :=
  let header := joinChar ',' (df.cols.map (fun p => p.1.data))
  let nrows := (df.cols.head?.map (fun p => p.2.length)).getD 0
  let line := fun (i : Nat) =>
    joinChar ',' (df.cols.map (fun p => renderValue (p.2.getD i (Value.str ""))))
  String.mk (joinChar '\n' (header :: (List.range nrows).map line) ++ ['\n'])

/-- Abstract interface of the external scipy.stats.ks_2samp routine: from two
one-dimensional samples it either returns a p-value or raises an exception. -/
abbrev KS := List Value → List Value → Except PyError ℚ

/-- Model of the external routine scipy.stats.ks_2samp on exactly the input
classes the theorems below apply it to: scipy raises ValueError when either
sample is empty, and on two identical samples the KS statistic is 0 so the
exact two-sided p-value is 1. Sample pairs that are neither empty nor
identical are outside this model and mapped to a generic error that no theorem
below relies on. -/
def ks_2samp (d1 d2 : List Value) : Except PyError ℚ :=
  if d1 = [] ∨ d2 = [] then .error (.valueError "Data passed to ks_2samp must not be empty")
  else if d1 = d2 then .ok 1
  else .error (.exception "sample pair outside the modelled fragment")

/-- Modelled from the spec: read_yaml_file lives in
networksecurity/utils/main_utils/utils.py, which is not among the provided
source files. Per the spec the schema load fails fast on a malformed document,
and a schema with zero columns is rejected at load time, so every loaded
schema mapping is non-empty. -/
def read_yaml_file (raw : SchemaConfig) : Except PyError SchemaConfig :=
  match raw.columns with
  | none => .error (.valueError "schema document malformed")
  | some cols =>
    if cols.isEmpty then .error (.valueError "schema has zero columns") else .ok raw

/-- DataValidation.__init__: loads the schema document, wrapping any failure
in NetworkSecurityException. -/
def dataValidationInit (raw : SchemaConfig) : Except PyError SchemaConfig :=
  match read_yaml_file raw with
  | .error e => .error (.networkSecurityException e)
  | .ok cfg => .ok cfg

/-- DataValidation.read_data: reads a CSV file into a DataFrame, wrapping any
failure (missing file, unparsable file) in NetworkSecurityException. -/
def read_data (fs : String → Option String) (file_path : String) : Except PyError DataFrame :=
  match fs file_path with
  | none => .error (.networkSecurityException (.fileNotFoundError file_path))
  | some s =>
    match readCsv s with
    | none => .error (.networkSecurityException (.parserError file_path))
    | some df => .ok df

/-- DataValidation.validate_number_of_columns: compares the DataFrame column
count with the schema column count; a schema document without a columns key
raises a KeyError, wrapped in NetworkSecurityException. -/
def validate_number_of_columns (schema : SchemaConfig) (df : DataFrame) : Except PyError Bool :=
  match schema.columns with
  | none => .error (.networkSecurityException (.keyError "columns"))
  | some cols => .ok (df.cols.length == cols.length)

/-- The list comprehension inside validate_required_columns: the
schema-declared columns absent from the DataFrame, in schema order. -/
def missing_columns (required : List String) (dataframe_columns : List String) : List String :=
  required.filter (fun col => decide (col ∉ dataframe_columns))

/-- DataValidation.validate_required_columns: false iff some schema-declared
column is missing from the DataFrame; extra DataFrame columns are ignored. -/
def validate_required_columns (schema : SchemaConfig) (df : DataFrame) : Except PyError Bool :=
  match schema.columns with
  | none => .error (.networkSecurityException (.keyError "columns"))
  | some cols =>
    if (missing_columns (cols.map Prod.fst) df.columnNames).isEmpty then .ok true
    else .ok false

/-- Python dict assignment report[column] = entry: overwrite in place when the
key is present, append otherwise. -/
def dictInsert (k : String) (v : DriftEntry) : List (String × DriftEntry) → List (String × DriftEntry)
  | [] => [(k, v)]
  | (k', v') :: rest => if k' = k then (k, v) :: rest else (k', v') :: dictInsert k v rest

/-- The per-column loop of detect_dataset_drift: for each base column, look
the column up in the current table, run the KS routine, record
p_value and drift_status in the report, and clear the aggregate status when
drift is found. Exceptions (a missing column in the current table, a raise
from the KS routine) propagate unwrapped to the enclosing handler. -/
def detect_drift_loop (ks : KS) (current_df : DataFrame) (threshold : ℚ) :
    List (String × List Value) → Bool → List (String × DriftEntry) →
      Except PyError (Bool × List (String × DriftEntry))
  | [], status, report => .ok (status, report)
  | (column, d1) :: rest, status, report =>
    match current_df.col? column with
    | none => .error (.keyError column)
    | some d2 =>
      match ks d1 d2 with
      | .error e => .error e
      | .ok p =>
        detect_drift_loop ks current_df threshold rest
          (if p < threshold then false else status)
          (dictInsert column ⟨p, decide (p < threshold)⟩ report)

/-- DataValidation.detect_dataset_drift: runs the per-column loop over the
base table columns starting from status true and an empty report, writes the
report to the configured path on success, and wraps any exception in
NetworkSecurityException (in which case nothing is written). The threshold
default is 0.05. -/
def detect_dataset_drift (ks : KS) (drift_report_file_path : String)
    (base_df current_df : DataFrame) (threshold : ℚ := mkRat 1 20) :
    Except PyError Bool × List (String × FileContent) :=
  match detect_drift_loop ks current_df threshold base_df.cols true [] with
  | .error e => (.error (.networkSecurityException e), [])
  | .ok (status, report) =>
    (.ok status, [(drift_report_file_path, .yamlReport report)])

/-- DataValidation.initiate_data_validation: read both tables, run the
column-count check and the required-columns check on each (raising a plain
Exception with a fixed message when a check returns false), run drift
detection, write the validated tables, and assemble the artifact. Any
exception is wrapped once more in NetworkSecurityException. The second
component collects the file writes the run performed. -/
def initiate_data_validation (schema : SchemaConfig) (ks : KS)
    (config : DataValidationConfig) (ingestion : DataIngestionArtifacts)
    (fs : String → Option String) :
    Except PyError DataValidationArtifacts × List (String × FileContent) :=
  match read_data fs ingestion.trained_file_path with
  | .error e => (.error (.networkSecurityException e), [])
  | .ok train_df =>
    match read_data fs ingestion.test_file_path with
    | .error e => (.error (.networkSecurityException e), [])
    | .ok test_df =>
      match validate_number_of_columns schema train_df with
      | .error e => (.error (.networkSecurityException e), [])
      | .ok vntrain =>
        if vntrain = false then
          (.error (.networkSecurityException
            (.exception "Number of columns do not match schema for training data.")), [])
        else
          match validate_number_of_columns schema test_df with
          | .error e => (.error (.networkSecurityException e), [])
          | .ok vntest =>
            if vntest = false then
              (.error (.networkSecurityException
                (.exception "Number of columns do not match schema for testing data.")), [])
            else
              match validate_required_columns schema train_df with
              | .error e => (.error (.networkSecurityException e), [])
              | .ok vrtrain =>
                if vrtrain = false then
                  (.error (.networkSecurityException
                    (.exception "Required columns missing in training data.")), [])
                else
                  match validate_required_columns schema test_df with
                  | .error e => (.error (.networkSecurityException e), [])
                  | .ok vrtest =>
                    if vrtest = false then
                      (.error (.networkSecurityException
                        (.exception "Required columns missing in testing data.")), [])
                    else
                      match detect_dataset_drift ks config.drift_report_file_path train_df test_df with
                      | (.error e, ws) => (.error (.networkSecurityException e), ws)
                      | (.ok validation_status, ws) =>
                        (.ok { validation_status := validation_status,
                               valid_train_file_path := config.valid_train_file_path,
                               valid_test_file_path := config.valid_test_file_path,
                               invalid_train_file_path := none,
                               invalid_test_file_path := none,
                               drift_report_file_path := config.drift_report_file_path },
                         ws ++ [(config.valid_train_file_path, .csvFile (toCsv train_df)),
                                (config.valid_test_file_path, .csvFile (toCsv test_df))])

/-- Whether a DriftComputationError occurs anywhere in an exception value,
through any number of NetworkSecurityException wrappings. -/
def containsDCE : PyError → Bool
  | .networkSecurityException e => containsDCE e
  | .driftComputationError _ => true
  | _ => false

/-- Specification of one drift-report entry produced for one base-table
column: the entry carries the column label, its p_value is the value the KS
routine returns on the base sample and the current-table sample of that
label, and its drift_status is the comparison of that p_value against the
threshold. -/
def entryOf (ks : KS) (current_df : DataFrame) (threshold : ℚ)
    (bc : String × List Value) (ent : String × DriftEntry) : Prop :=
  ent.1 = bc.1 ∧
    ∃ d2, current_df.col? bc.1 = some d2 ∧ ks bc.2 d2 = .ok ent.2.p_value ∧
      ent.2.drift_status = decide (ent.2.p_value < threshold)

/-- A concrete file system used to exercise the pipeline: the training file
holds one column a with a single quoted cell, the testing file the same cell
unquoted. -/
def fsW : String → Option String := fun p =>
  if p = "train.csv" then some "a\n\"x\"\n"
  else if p = "test.csv" then some "a\nx\n" else none

/-- A concrete validation configuration. -/
def configW : DataValidationConfig := ⟨"report.yaml", "valid_train.csv", "valid_test.csv"⟩

/-- A concrete ingestion artifact naming the two input files. -/
def ingestW : DataIngestionArtifacts := ⟨"train.csv", "test.csv"⟩

/-- A concrete loaded schema declaring the single column a. -/
def schemaW : SchemaConfig := ⟨some [("a", "str")]⟩

/-- A concrete one-column table whose sample is constant-valued. -/
def dfConst : DataFrame := ⟨[("a", [Value.num 5, Value.num 5, Value.num 5])]⟩

/-- A concrete one-column table whose sample is empty. -/
def dfEmpty : DataFrame := ⟨[("a", ([] : List Value))]⟩

/-- A concrete two-column table with one row. -/
def dfTwo : DataFrame := ⟨[("a", [Value.num 1]), ("b", [Value.num 2])]⟩

/-- A concrete file system whose training file has two columns, so the
column-count check against the one-column schema fails. -/
def fsBad : String → Option String := fun p =>
  if p = "train.csv" then some "a,b\nx,y\n"
  else if p = "test.csv" then some "a\nx\n" else none

/-- Python dict assignment with a fresh key appends the pair at the end. -/
lemma dictInsert_of_not_mem (k : String) (v : DriftEntry) :
    ∀ l : List (String × DriftEntry), k ∉ l.map Prod.fst →
      dictInsert k v l = l ++ [(k, v)] := by
  intro l
  induction l with
  | nil => intro _; rfl
  | cons p rest ih =>
    intro h
    obtain ⟨k', v'⟩ := p
    simp only [List.map_cons, List.mem_cons, not_or] at h
    simp only [dictInsert, if_neg (fun hk : k' = k => h.1 hk.symm), List.cons_append,
      List.cons.injEq, true_and]
    exact ih h.2

/-- Invariant of the per-column drift loop: on success the report extends the
accumulator with one entry per remaining base column, in order, each entry as
specified by entryOf, and the final status is the incoming status cleared as
soon as any new entry carries drift. -/
lemma detect_drift_loop_ok (ks : KS) (cur : DataFrame) (threshold : ℚ) :
    ∀ (cols : List (String × List Value)) (s0 : Bool) (r0 : List (String × DriftEntry)),
      (∀ c ∈ cols.map Prod.fst, c ∉ r0.map Prod.fst) →
      (cols.map Prod.fst).Nodup →
      ∀ (s : Bool) (r : List (String × DriftEntry)),
        detect_drift_loop ks cur threshold cols s0 r0 = .ok (s, r) →
        ∃ ne, r = r0 ++ ne ∧ List.Forall₂ (entryOf ks cur threshold) cols ne ∧
          s = (s0 && !(ne.any fun e => e.2.drift_status)) := by
  intro cols
  induction cols with
  | nil =>
    intro s0 r0 _ _ s r h
    simp only [detect_drift_loop, Except.ok.injEq, Prod.mk.injEq] at h
    exact ⟨[], by simp [h.2], List.Forall₂.nil, by simp [h.1]⟩
  | cons hd tl ih =>
    intro s0 r0 hfresh hnd s r h
    obtain ⟨column, d1⟩ := hd
    simp only [detect_drift_loop] at h
    split at h
    · exact absurd h (by simp)
    next d2 hget =>
      split at h
      · exact absurd h (by simp)
      next p hks =>
        simp only [List.map_cons, List.nodup_cons] at hnd
        have hcol : column ∉ r0.map Prod.fst := hfresh column (by simp)
        rw [dictInsert_of_not_mem column ⟨p, decide (p < threshold)⟩ r0 hcol] at h
        have hfresh' : ∀ c ∈ tl.map Prod.fst,
            c ∉ (r0 ++ [(column, (⟨p, decide (p < threshold)⟩ : DriftEntry))]).map Prod.fst := by
          intro c hc
          simp only [List.map_append, List.mem_append, List.map_cons, List.map_nil,
            List.mem_singleton, not_or]
          refine ⟨hfresh c (by simp [hc]), ?_⟩
          intro hcc
          exact hnd.1 (hcc ▸ hc)
        obtain ⟨ne, hr, hfa, hs⟩ := ih _ _ hfresh' hnd.2 s r h
        refine ⟨(column, ⟨p, decide (p < threshold)⟩) :: ne, ?_, ?_, ?_⟩
        · rw [hr, List.append_assoc]
          rfl
        · exact List.Forall₂.cons ⟨rfl, d2, hget, hks, rfl⟩ hfa
        · by_cases hp : p < threshold
          · simp only [hp, if_true] at hs
            simp [hs, hp]
          · simp only [hp, if_false] at hs
            simp [hs, hp]


/-- Exceptions escaping the drift loop never contain a DriftComputationError
when the KS routine never raises one: the loop itself only raises a KeyError
or forwards the KS exception. -/
lemma detect_drift_loop_error (ks : KS) (cur : DataFrame) (threshold : ℚ)
    (hks : ∀ d1 d2 e0, ks d1 d2 = .error e0 → containsDCE e0 = false) :
    ∀ (cols : List (String × List Value)) (s0 : Bool) (r0 : List (String × DriftEntry))
      (e : PyError),
      detect_drift_loop ks cur threshold cols s0 r0 = .error e → containsDCE e = false := by
  intro cols
  induction cols with
  | nil => intro s0 r0 e h; simp [detect_drift_loop] at h
  | cons hd tl ih =>
    intro s0 r0 e h
    obtain ⟨column, d1⟩ := hd
    simp only [detect_drift_loop] at h
    split at h
    · simp only [Except.error.injEq] at h
      rw [← h]
      rfl
    next d2 hget =>
      split at h
      next e0 hks0 =>
        simp only [Except.error.injEq] at h
        exact h ▸ hks d1 d2 e0 hks0
      next p hp =>
        exact ih _ _ _ h

/-- Shape of a successful detect_dataset_drift call: the only write is the
report at the configured path, and the loop produced status and report. -/
lemma detect_ok_shape (ks : KS) (path : String) (base cur : DataFrame) (threshold : ℚ)
    (s : Bool) (ws : List (String × FileContent))
    (h : detect_dataset_drift ks path base cur threshold = (.ok s, ws)) :
    ∃ report, ws = [(path, .yamlReport report)] ∧
      detect_drift_loop ks cur threshold base.cols true [] = .ok (s, report) := by
  unfold detect_dataset_drift at h
  split at h
  · exact absurd h (by simp)
  next status report hl =>
    simp only [Prod.mk.injEq, Except.ok.injEq] at h
    exact ⟨report, h.2.symm, h.1 ▸ hl⟩

/-- Shape of a failing detect_dataset_drift call: nothing is written and the
loop exception is wrapped once in NetworkSecurityException. -/
lemma detect_error_shape (ks : KS) (path : String) (base cur : DataFrame) (threshold : ℚ)
    (e : PyError) (ws : List (String × FileContent))
    (h : detect_dataset_drift ks path base cur threshold = (.error e, ws)) :
    ws = [] ∧ ∃ e0, e = .networkSecurityException e0 ∧
      detect_drift_loop ks cur threshold base.cols true [] = .error e0 := by
  unfold detect_dataset_drift at h
  split at h
  next e0 hl =>
    simp only [Prod.mk.injEq, Except.error.injEq] at h
    exact ⟨h.2.symm, e0, h.1.symm, hl⟩
  · exact absurd h (by simp)

/-- The labels of the produced report entries are the base column labels in
base order. -/
lemma forall2_names (ks : KS) (cur : DataFrame) (threshold : ℚ)
    (cols : List (String × List Value)) (ne : List (String × DriftEntry))
    (h : List.Forall₂ (entryOf ks cur threshold) cols ne) :
    ne.map Prod.fst = cols.map Prod.fst := by
  induction h with
  | nil => rfl
  | cons h1 _ ih => simp [ih, h1.1]

/-- Every produced p_value lies in the range of the KS routine. -/
lemma forall2_pvalue_range (ks : KS) (cur : DataFrame) (threshold : ℚ)
    (hks : ∀ d1 d2 p, ks d1 d2 = .ok p → 0 ≤ p ∧ p ≤ 1)
    (cols : List (String × List Value)) (ne : List (String × DriftEntry))
    (h : List.Forall₂ (entryOf ks cur threshold) cols ne) :
    ∀ ent ∈ ne, 0 ≤ ent.2.p_value ∧ ent.2.p_value ≤ 1 := by
  induction h with
  | nil => intro ent hm; simp at hm
  | cons h1 h2 ih =>
    intro ent hm
    rcases List.mem_cons.mp hm with rfl | hm'
    · obtain ⟨_, d2, _, hok, _⟩ := h1
      exact hks _ _ _ hok
    · exact ih ent hm'

/-- The modelled KS routine returns only probabilities. -/
lemma ks_2samp_pvalue_range : ∀ d1 d2 p, ks_2samp d1 d2 = .ok p → 0 ≤ p ∧ p ≤ 1 := by
  intro d1 d2 p h
  unfold ks_2samp at h
  split_ifs at h
  injection h with h1
  rw [← h1]
  norm_num

/-- The modelled KS routine never raises a DriftComputationError. -/
lemma ks_2samp_no_dce : ∀ d1 d2 e0, ks_2samp d1 d2 = .error e0 → containsDCE e0 = false := by
  intro d1 d2 e0 h
  unfold ks_2samp at h
  split_ifs at h
  · injection h with h1
    rw [← h1]
    rfl
  · injection h with h1
    rw [← h1]
    rfl

/-- C1: for tables with pairwise-distinct base column labels (identical column
sets are guaranteed by the structural checks of 4.1) and any threshold, a
completed drift-detection run produces one report entry per base column whose
drift_status is exactly the comparison p_value < threshold, the threshold
applied to each column independently, and returns the aggregate status
NOT (any column has drift found); any single drifting column forces the
returned status to false. -/
theorem drift_per_column_threshold_and_aggregate
    (ks : KS) (path : String) (base_df current_df : DataFrame) (threshold : ℚ)
    (hnd : (base_df.cols.map Prod.fst).Nodup)
    (status : Bool) (ws : List (String × FileContent))
    (h : detect_dataset_drift ks path base_df current_df threshold = (.ok status, ws)) :
    ∃ report, ws = [(path, .yamlReport report)] ∧
      List.Forall₂ (entryOf ks current_df threshold) base_df.cols report ∧
      status = !(report.any fun ent => ent.2.drift_status) ∧
      ∀ ent ∈ report, ent.2.drift_status = true → status = false := by
  obtain ⟨report, hws, hl⟩ := detect_ok_shape ks path base_df current_df threshold status ws h
  obtain ⟨ne, hr, hfa, hs⟩ := detect_drift_loop_ok ks current_df threshold base_df.cols true []
    (by simp) hnd status report hl
  rw [List.nil_append] at hr
  subst hr
  have hs' : status = !(report.any fun ent => ent.2.drift_status) := by simpa using hs
  refine ⟨report, hws, hfa, hs', ?_⟩
  intro ent hm hd
  have ha : report.any (fun ent => ent.2.drift_status) = true :=
    List.any_eq_true.mpr ⟨ent, hm, hd⟩
  rw [hs', ha]
  rfl

/-- Witness for C1: a concrete completed run on the two-column table dfTwo
against itself with the default threshold. -/
theorem drift_per_column_threshold_and_aggregate_witness :
    ∃ report,
      [("r", FileContent.yamlReport [("a", ⟨1, false⟩), ("b", ⟨1, false⟩)])] =
        [("r", FileContent.yamlReport report)] ∧
      List.Forall₂ (entryOf ks_2samp dfTwo (mkRat 1 20)) dfTwo.cols report ∧
      true = !(report.any fun ent => ent.2.drift_status) ∧
      ∀ ent ∈ report, ent.2.drift_status = true → true = false :=
  drift_per_column_threshold_and_aggregate ks_2samp "r" dfTwo dfTwo (mkRat 1 20)
    (by decide) true
    [("r", FileContent.yamlReport [("a", ⟨1, false⟩), ("b", ⟨1, false⟩)])] (by decide)

/-- C2 counterexample: a column whose two samples are constant-valued (both
samples of column a are [5,5,5]) does not fail with a DriftComputationError:
the run completes, records p_value 1 with drift_status false for that column,
and returns the aggregate status true. -/
theorem constant_column_recorded_not_failed :
    detect_dataset_drift ks_2samp "report.yaml" dfConst dfConst (mkRat 1 20) =
      (.ok true, [("report.yaml", .yamlReport [("a", ⟨1, false⟩)])]) := by decide

/-- C2 amended: the code defines no DriftComputationError. A column whose
samples the KS routine rejects (for example an empty sample) aborts the whole
run with the routine exception wrapped in NetworkSecurityException, writing
nothing, and no DriftComputationError occurs at any wrapping depth as long as
the KS routine itself raises none; constant-valued comparable samples are
instead recorded in the report with their p-value. -/
theorem drift_error_wrapped_never_dce
    (ks : KS) (path : String) (base_df current_df : DataFrame) (threshold : ℚ)
    (hks : ∀ d1 d2 e0, ks d1 d2 = .error e0 → containsDCE e0 = false)
    (e : PyError) (ws : List (String × FileContent))
    (h : detect_dataset_drift ks path base_df current_df threshold = (.error e, ws)) :
    containsDCE e = false ∧ (∃ e0, e = .networkSecurityException e0) ∧ ws = [] := by
  obtain ⟨hw, e0, he, hl⟩ := detect_error_shape ks path base_df current_df threshold e ws h
  subst he
  refine ⟨?_, ⟨e0, rfl⟩, hw⟩
  have hdce := detect_drift_loop_error ks current_df threshold hks base_df.cols true [] e0 hl
  simpa [containsDCE] using hdce

/-- Witness for C2: the empty-sample column aborts the run with a wrapped
ValueError, not a DriftComputationError. -/
theorem drift_error_wrapped_never_dce_witness :
    containsDCE
        (.networkSecurityException (.valueError "Data passed to ks_2samp must not be empty")) =
      false ∧
    (∃ e0, PyError.networkSecurityException
        (.valueError "Data passed to ks_2samp must not be empty") =
      .networkSecurityException e0) ∧
    ([] : List (String × FileContent)) = [] :=
  drift_error_wrapped_never_dce ks_2samp "r" dfEmpty dfEmpty (mkRat 1 20)
    ks_2samp_no_dce
    (.networkSecurityException (.valueError "Data passed to ks_2samp must not be empty"))
    [] (by decide)

/-- C5: with a loaded schema, the required-columns check returns true iff
every schema-declared column name occurs among the table columns (order
irrelevant, undeclared extra columns harmless), it returns false exactly when
the missing list is non-empty, and the missing list is exactly the set
difference between declared names and table names. -/
theorem required_columns_check_characterisation
    (schema : SchemaConfig) (cols : List (String × String)) (df : DataFrame)
    (hc : schema.columns = some cols) :
    (validate_required_columns schema df = .ok true ↔
      ∀ c ∈ cols.map Prod.fst, c ∈ df.columnNames) ∧
    (validate_required_columns schema df = .ok false ↔
      missing_columns (cols.map Prod.fst) df.columnNames ≠ []) ∧
    (missing_columns (cols.map Prod.fst) df.columnNames).toFinset =
      (cols.map Prod.fst).toFinset \ df.columnNames.toFinset := by
  have key : missing_columns (cols.map Prod.fst) df.columnNames = [] ↔
      ∀ c ∈ cols.map Prod.fst, c ∈ df.columnNames := by
    simp [missing_columns, List.filter_eq_nil_iff]
  have h3 : (missing_columns (cols.map Prod.fst) df.columnNames).toFinset =
      (cols.map Prod.fst).toFinset \ df.columnNames.toFinset := by
    ext c
    simp [missing_columns, List.mem_filter, DataFrame.columnNames]
  have hval : validate_required_columns schema df =
      if (missing_columns (cols.map Prod.fst) df.columnNames).isEmpty then .ok true
      else .ok false := by
    unfold validate_required_columns
    rw [hc]
  have hval2 : validate_required_columns schema df =
      .ok ((missing_columns (cols.map Prod.fst) df.columnNames).isEmpty) := by
    rw [hval]
    cases hmm : (missing_columns (cols.map Prod.fst) df.columnNames) with
    | nil => rfl
    | cons a l => rfl
  refine ⟨?_, ?_, h3⟩
  · rw [hval2]
    constructor
    · intro h0
      injection h0 with h1
      exact key.mp (by simpa [List.isEmpty_iff] using h1)
    · intro hall
      rw [key.mpr hall]
      rfl
  · rw [hval2]
    cases hmm : (missing_columns (cols.map Prod.fst) df.columnNames) with
    | nil => simp
    | cons a l => simp

/-- Witness for C5: a table missing column b out of the declared a, b fails
the required-columns check. -/
theorem required_columns_check_witness :
    validate_required_columns ⟨some [("a", "str"), ("b", "str")]⟩ ⟨[("a", [])]⟩ = .ok false :=
  (required_columns_check_characterisation ⟨some [("a", "str"), ("b", "str")]⟩
      [("a", "str"), ("b", "str")] ⟨[("a", [])]⟩ rfl).2.1.mpr (by decide)

/-- C6: with a loaded schema of k columns, including k = 0, the column-count
check returns true iff the table has exactly k columns, and its verdict
depends only on the column count, never on names or types. -/
theorem column_count_check_characterisation
    (schema : SchemaConfig) (cols : List (String × String)) (df : DataFrame)
    (hc : schema.columns = some cols) :
    (validate_number_of_columns schema df = .ok true ↔ df.cols.length = cols.length) ∧
    (∀ df' : DataFrame, df'.cols.length = df.cols.length →
      validate_number_of_columns schema df' = validate_number_of_columns schema df) := by
  constructor
  · simp [validate_number_of_columns, hc]
  · intro df' hlen
    simp [validate_number_of_columns, hc, hlen]

/-- Witness for C6 at the k = 0 boundary: the empty schema against the empty
table. -/
theorem column_count_check_witness :
    validate_number_of_columns ⟨some []⟩ ⟨[]⟩ = .ok true :=
  (column_count_check_characterisation ⟨some []⟩ [] ⟨[]⟩ rfl).1.mpr rfl

/-- C7: the schema load rejects a schema with zero columns at load time, so a
successfully loaded schema always carries a non-empty columns mapping and an
empty schema never reaches the structural checks. -/
theorem schema_load_rejects_empty (raw : SchemaConfig) :
    (∀ cfg, read_yaml_file raw = .ok cfg → ∃ cols, cfg.columns = some cols ∧ cols ≠ []) ∧
    (raw.columns = some [] → ∃ e, read_yaml_file raw = .error e) := by
  constructor
  · intro cfg h
    cases hc : raw.columns with
    | none => simp [read_yaml_file, hc] at h
    | some cols =>
      simp only [read_yaml_file, hc] at h
      split_ifs at h with he
      injection h with h1
      rw [← h1, hc]
      refine ⟨cols, rfl, ?_⟩
      simpa [List.isEmpty_iff] using he
  · intro h
    exact ⟨.valueError "schema has zero columns", by simp [read_yaml_file, h]⟩

/-- Witness for C7: a one-column schema document loads and is non-empty. -/
theorem schema_load_rejects_empty_witness :
    ∃ cols, (SchemaConfig.mk (some [("a", "str")])).columns = some cols ∧ cols ≠ [] :=
  (schema_load_rejects_empty ⟨some [("a", "str")]⟩).1 ⟨some [("a", "str")]⟩ (by decide)

/-- A column-count check that returned at all implies the schema document has
a columns mapping. -/
lemma validate_number_ok_schema (schema : SchemaConfig) (df : DataFrame) (b : Bool)
    (h : validate_number_of_columns schema df = .ok b) :
    ∃ cols, schema.columns = some cols := by
  unfold validate_number_of_columns at h
  cases hc : schema.columns with
  | none => rw [hc] at h; simp at h
  | some cols => exact ⟨cols, rfl⟩

/-- A required-columns check that returned at all implies the schema document
has a columns mapping. -/
lemma validate_required_ok_schema (schema : SchemaConfig) (df : DataFrame) (b : Bool)
    (h : validate_required_columns schema df = .ok b) :
    ∃ cols, schema.columns = some cols := by
  unfold validate_required_columns at h
  cases hc : schema.columns with
  | none => rw [hc] at h; simp at h
  | some cols => exact ⟨cols, rfl⟩

/-- Exceptions escaping read_data are wrapped in NetworkSecurityException. -/
lemma read_data_error_nse (fs : String → Option String) (p : String) (e : PyError)
    (h : read_data fs p = .error e) : ∃ e1, e = .networkSecurityException e1 := by
  unfold read_data at h
  cases hf : fs p with
  | none => rw [hf] at h; simp at h; exact ⟨_, h.symm⟩
  | some s =>
    rw [hf] at h
    dsimp only at h
    cases hr : readCsv s with
    | none => rw [hr] at h; simp at h; exact ⟨_, h.symm⟩
    | some df => rw [hr] at h; simp at h

/-- Exceptions escaping validate_number_of_columns are wrapped in
NetworkSecurityException. -/
lemma validate_number_error_nse (schema : SchemaConfig) (df : DataFrame) (e : PyError)
    (h : validate_number_of_columns schema df = .error e) :
    ∃ e1, e = .networkSecurityException e1 := by
  unfold validate_number_of_columns at h
  cases hc : schema.columns with
  | none => rw [hc] at h; simp at h; exact ⟨_, h.symm⟩
  | some cols => rw [hc] at h; simp at h

/-- Exceptions escaping validate_required_columns are wrapped in
NetworkSecurityException. -/
lemma validate_required_error_nse (schema : SchemaConfig) (df : DataFrame) (e : PyError)
    (h : validate_required_columns schema df = .error e) :
    ∃ e1, e = .networkSecurityException e1 := by
  unfold validate_required_columns at h
  cases hc : schema.columns with
  | none => rw [hc] at h; simp at h; exact ⟨_, h.symm⟩
  | some cols =>
    rw [hc] at h
    dsimp only at h
    split at h <;> simp at h

/-- read_data depends on the file system only at the path it reads. -/
lemma read_data_congr (fs fs' : String → Option String) (p : String)
    (h : fs' p = fs p) : read_data fs' p = read_data fs p := by
  unfold read_data
  rw [h]

/-- initiate_data_validation depends on the file system only at the two input
paths, so a re-run over unchanged inputs reproduces the run exactly. -/
lemma initiate_congr_fs (schema : SchemaConfig) (ks : KS) (config : DataValidationConfig)
    (ingestion : DataIngestionArtifacts) (fs fs' : String → Option String)
    (h1 : fs' ingestion.trained_file_path = fs ingestion.trained_file_path)
    (h2 : fs' ingestion.test_file_path = fs ingestion.test_file_path) :
    initiate_data_validation schema ks config ingestion fs' =
      initiate_data_validation schema ks config ingestion fs := by
  unfold initiate_data_validation
  rw [read_data_congr fs fs' ingestion.trained_file_path h1,
      read_data_congr fs fs' ingestion.test_file_path h2]

/-- Shape of a successful initiate_data_validation run: both reads succeeded,
drift detection completed writing the report, the run wrote the report then
the two validated tables serialized by toCsv, and the artifact fields are
fixed by the configuration, with None invalid paths. -/
lemma initiate_ok_shape (schema : SchemaConfig) (ks : KS)
    (config : DataValidationConfig) (ingestion : DataIngestionArtifacts)
    (fs : String → Option String) (art : DataValidationArtifacts)
    (ws : List (String × FileContent))
    (h : initiate_data_validation schema ks config ingestion fs = (.ok art, ws)) :
    ∃ train_df test_df status report,
      read_data fs ingestion.trained_file_path = .ok train_df ∧
      read_data fs ingestion.test_file_path = .ok test_df ∧
      detect_dataset_drift ks config.drift_report_file_path train_df test_df =
        (.ok status, [(config.drift_report_file_path, .yamlReport report)]) ∧
      ws = [(config.drift_report_file_path, .yamlReport report),
            (config.valid_train_file_path, .csvFile (toCsv train_df)),
            (config.valid_test_file_path, .csvFile (toCsv test_df))] ∧
      art = ⟨status, config.valid_train_file_path, config.valid_test_file_path,
             none, none, config.drift_report_file_path⟩ := by
  unfold initiate_data_validation at h
  cases h1 : read_data fs ingestion.trained_file_path with
  | error e => rw [h1] at h; simp at h
  | ok train_df =>
  rw [h1] at h
  dsimp only at h
  cases h2 : read_data fs ingestion.test_file_path with
  | error e => rw [h2] at h; simp at h
  | ok test_df =>
  rw [h2] at h
  dsimp only at h
  cases h3 : validate_number_of_columns schema train_df with
  | error e => rw [h3] at h; simp at h
  | ok vntrain =>
  rw [h3] at h
  dsimp only at h
  cases vntrain with
  | false => simp at h
  | true =>
  rw [if_neg (show ¬(true = false) by simp)] at h
  cases h4 : validate_number_of_columns schema test_df with
  | error e => rw [h4] at h; simp at h
  | ok vntest =>
  rw [h4] at h
  dsimp only at h
  cases vntest with
  | false => simp at h
  | true =>
  rw [if_neg (show ¬(true = false) by simp)] at h
  cases h5 : validate_required_columns schema train_df with
  | error e => rw [h5] at h; simp at h
  | ok vrtrain =>
  rw [h5] at h
  dsimp only at h
  cases vrtrain with
  | false => simp at h
  | true =>
  rw [if_neg (show ¬(true = false) by simp)] at h
  cases h6 : validate_required_columns schema test_df with
  | error e => rw [h6] at h; simp at h
  | ok vrtest =>
  rw [h6] at h
  dsimp only at h
  cases vrtest with
  | false => simp at h
  | true =>
  rw [if_neg (show ¬(true = false) by simp)] at h
  cases h7 : detect_dataset_drift ks config.drift_report_file_path train_df test_df with
  | mk res ws' =>
  rw [h7] at h
  cases res with
  | error e => simp at h
  | ok status =>
  dsimp only at h
  obtain ⟨report, hws', hl⟩ :=
    detect_ok_shape ks config.drift_report_file_path train_df test_df (mkRat 1 20) status ws' h7
  simp only [Prod.mk.injEq, Except.ok.injEq] at h
  refine ⟨train_df, test_df, status, report, rfl, rfl, hws' ▸ h7, ?_, ?_⟩
  · rw [← h.2, hws']
    rfl
  · exact h.1.symm

/-- Every exception escaping initiate_data_validation is wrapped in
NetworkSecurityException. -/
lemma initiate_error_nse (schema : SchemaConfig) (ks : KS)
    (config : DataValidationConfig) (ingestion : DataIngestionArtifacts)
    (fs : String → Option String) (e : PyError)
    (h : (initiate_data_validation schema ks config ingestion fs).1 = .error e) :
    ∃ e1, e = .networkSecurityException e1 := by
  unfold initiate_data_validation at h
  cases h1 : read_data fs ingestion.trained_file_path with
  | error e0 => rw [h1] at h; simp at h; exact ⟨_, h.symm⟩
  | ok train_df =>
  rw [h1] at h
  dsimp only at h
  cases h2 : read_data fs ingestion.test_file_path with
  | error e0 => rw [h2] at h; simp at h; exact ⟨_, h.symm⟩
  | ok test_df =>
  rw [h2] at h
  dsimp only at h
  cases h3 : validate_number_of_columns schema train_df with
  | error e0 => rw [h3] at h; simp at h; exact ⟨_, h.symm⟩
  | ok vntrain =>
  rw [h3] at h
  dsimp only at h
  cases vntrain with
  | false => simp at h; exact ⟨_, h.symm⟩
  | true =>
  rw [if_neg (show ¬(true = false) by simp)] at h
  cases h4 : validate_number_of_columns schema test_df with
  | error e0 => rw [h4] at h; simp at h; exact ⟨_, h.symm⟩
  | ok vntest =>
  rw [h4] at h
  dsimp only at h
  cases vntest with
  | false => simp at h; exact ⟨_, h.symm⟩
  | true =>
  rw [if_neg (show ¬(true = false) by simp)] at h
  cases h5 : validate_required_columns schema train_df with
  | error e0 => rw [h5] at h; simp at h; exact ⟨_, h.symm⟩
  | ok vrtrain =>
  rw [h5] at h
  dsimp only at h
  cases vrtrain with
  | false => simp at h; exact ⟨_, h.symm⟩
  | true =>
  rw [if_neg (show ¬(true = false) by simp)] at h
  cases h6 : validate_required_columns schema test_df with
  | error e0 => rw [h6] at h; simp at h; exact ⟨_, h.symm⟩
  | ok vrtest =>
  rw [h6] at h
  dsimp only at h
  cases vrtest with
  | false => simp at h; exact ⟨_, h.symm⟩
  | true =>
  rw [if_neg (show ¬(true = false) by simp)] at h
  cases h7 : detect_dataset_drift ks config.drift_report_file_path train_df test_df with
  | mk res ws' =>
  rw [h7] at h
  cases res with
  | error e0 => simp at h; exact ⟨_, h.symm⟩
  | ok status => simp at h

/-- With a schema document lacking the columns key, the column-count check
raises inside the helper and the caller receives the doubly wrapped KeyError. -/
lemma initiate_columns_missing (schema : SchemaConfig) (ks : KS)
    (config : DataValidationConfig) (ingestion : DataIngestionArtifacts)
    (fs : String → Option String) (train_df test_df : DataFrame)
    (h1 : read_data fs ingestion.trained_file_path = .ok train_df)
    (h2 : read_data fs ingestion.test_file_path = .ok test_df)
    (hc : schema.columns = none) :
    (initiate_data_validation schema ks config ingestion fs).1 =
      .error (.networkSecurityException (.networkSecurityException (.keyError "columns"))) := by
  have h3 : validate_number_of_columns schema train_df =
      .error (.networkSecurityException (.keyError "columns")) := by
    unfold validate_number_of_columns
    rw [hc]
  unfold initiate_data_validation
  rw [h1]
  dsimp only
  rw [h2]
  dsimp only
  rw [h3]

/-- C3: when either table fails the column-count check or the required-columns
check, initiate_data_validation raises the corresponding structural validation
error (a plain Exception wrapped in NetworkSecurityException) and performs no
file write at all: drift detection is never attempted and no drift report is
written for that run. -/
theorem structural_failure_aborts_before_drift
    (schema : SchemaConfig) (ks : KS) (config : DataValidationConfig)
    (ingestion : DataIngestionArtifacts) (fs : String → Option String)
    (train_df test_df : DataFrame)
    (h1 : read_data fs ingestion.trained_file_path = .ok train_df)
    (h2 : read_data fs ingestion.test_file_path = .ok test_df)
    (hfail : validate_number_of_columns schema train_df = .ok false ∨
             validate_number_of_columns schema test_df = .ok false ∨
             validate_required_columns schema train_df = .ok false ∨
             validate_required_columns schema test_df = .ok false) :
    ∃ msg, msg ∈ ["Number of columns do not match schema for training data.",
                  "Number of columns do not match schema for testing data.",
                  "Required columns missing in training data.",
                  "Required columns missing in testing data."] ∧
      initiate_data_validation schema ks config ingestion fs =
        (.error (.networkSecurityException (.exception msg)), []) := by
  have hsc : ∃ cols, schema.columns = some cols := by
    rcases hfail with hf | hf | hf | hf
    · exact validate_number_ok_schema schema train_df false hf
    · exact validate_number_ok_schema schema test_df false hf
    · exact validate_required_ok_schema schema train_df false hf
    · exact validate_required_ok_schema schema test_df false hf
  obtain ⟨cols, hc⟩ := hsc
  have hvn1 : validate_number_of_columns schema train_df =
      .ok (train_df.cols.length == cols.length) := by
    unfold validate_number_of_columns
    rw [hc]
  have hvn2 : validate_number_of_columns schema test_df =
      .ok (test_df.cols.length == cols.length) := by
    unfold validate_number_of_columns
    rw [hc]
  have hvr1 : validate_required_columns schema train_df =
      .ok ((missing_columns (cols.map Prod.fst) train_df.columnNames).isEmpty) := by
    unfold validate_required_columns
    rw [hc]
    dsimp only
    cases hmm : missing_columns (cols.map Prod.fst) train_df.columnNames <;> rfl
  have hvr2 : validate_required_columns schema test_df =
      .ok ((missing_columns (cols.map Prod.fst) test_df.columnNames).isEmpty) := by
    unfold validate_required_columns
    rw [hc]
    dsimp only
    cases hmm : missing_columns (cols.map Prod.fst) test_df.columnNames <;> rfl
  unfold initiate_data_validation
  rw [h1]
  dsimp only
  rw [h2]
  dsimp only
  rw [hvn1]
  dsimp only
  cases hb1 : (train_df.cols.length == cols.length) with
  | false =>
    refine ⟨"Number of columns do not match schema for training data.", by simp, ?_⟩
    rw [if_pos rfl]
  | true =>
  rw [if_neg (show ¬(true = false) by simp)]
  rw [hvn2]
  dsimp only
  cases hb2 : (test_df.cols.length == cols.length) with
  | false =>
    refine ⟨"Number of columns do not match schema for testing data.", by simp, ?_⟩
    rw [if_pos rfl]
  | true =>
  rw [if_neg (show ¬(true = false) by simp)]
  rw [hvr1]
  dsimp only
  cases hb3 : (missing_columns (cols.map Prod.fst) train_df.columnNames).isEmpty with
  | false =>
    refine ⟨"Required columns missing in training data.", by simp, ?_⟩
    rw [if_pos rfl]
  | true =>
  rw [if_neg (show ¬(true = false) by simp)]
  rw [hvr2]
  dsimp only
  cases hb4 : (missing_columns (cols.map Prod.fst) test_df.columnNames).isEmpty with
  | false =>
    refine ⟨"Required columns missing in testing data.", by simp, ?_⟩
    rw [if_pos rfl]
  | true =>
  rw [hvn1, hb1, hvn2, hb2, hvr1, hb3, hvr2, hb4] at hfail
  simp at hfail

/-- Witness for C3: the two-column training table against the one-column
schema fails the column-count check, the run errors and writes nothing. -/
theorem structural_failure_aborts_before_drift_witness :
    ∃ msg, msg ∈ ["Number of columns do not match schema for training data.",
                  "Number of columns do not match schema for testing data.",
                  "Required columns missing in training data.",
                  "Required columns missing in testing data."] ∧
      initiate_data_validation schemaW ks_2samp configW ingestW fsBad =
        (.error (.networkSecurityException (.exception msg)), []) :=
  structural_failure_aborts_before_drift schemaW ks_2samp configW ingestW fsBad
    ⟨[("a", [Value.str "x"]), ("b", [Value.str "y"])]⟩ ⟨[("a", [Value.str "x"])]⟩
    (by decide) (by decide) (Or.inl (by decide))

/-- C4: a completed drift-detection run produces exactly one report entry per
base-table column, in base-table column iteration order, each entry holding a
p_value in [0,1] (the KS routine returns probabilities) and a boolean
drift_status, and the report is the run's single write, performed at the
configured path regardless of the aggregate verdict. -/
theorem drift_report_shape_and_persistence
    (ks : KS) (path : String) (base_df current_df : DataFrame) (threshold : ℚ)
    (hnd : (base_df.cols.map Prod.fst).Nodup)
    (hks : ∀ d1 d2 p, ks d1 d2 = .ok p → 0 ≤ p ∧ p ≤ 1)
    (status : Bool) (ws : List (String × FileContent))
    (h : detect_dataset_drift ks path base_df current_df threshold = (.ok status, ws)) :
    ∃ report, ws = [(path, .yamlReport report)] ∧
      report.map Prod.fst = base_df.cols.map Prod.fst ∧
      ∀ ent ∈ report, 0 ≤ ent.2.p_value ∧ ent.2.p_value ≤ 1 := by
  obtain ⟨report, hws, hl⟩ := detect_ok_shape ks path base_df current_df threshold status ws h
  obtain ⟨ne, hr, hfa, hs⟩ := detect_drift_loop_ok ks current_df threshold base_df.cols true []
    (by simp) hnd status report hl
  rw [List.nil_append] at hr
  subst hr
  exact ⟨report, hws, forall2_names ks current_df threshold base_df.cols report hfa,
    forall2_pvalue_range ks current_df threshold hks base_df.cols report hfa⟩

/-- Witness for C4 at a concrete completed two-column run. -/
theorem drift_report_shape_and_persistence_witness :
    ∃ report,
      [("r", FileContent.yamlReport [("a", ⟨1, false⟩), ("b", ⟨1, false⟩)])] =
        [("r", FileContent.yamlReport report)] ∧
      report.map Prod.fst = dfTwo.cols.map Prod.fst ∧
      ∀ ent ∈ report, 0 ≤ ent.2.p_value ∧ ent.2.p_value ≤ 1 :=
  drift_report_shape_and_persistence ks_2samp "r" dfTwo dfTwo (mkRat 1 20)
    (by decide) ks_2samp_pvalue_range true
    [("r", FileContent.yamlReport [("a", ⟨1, false⟩), ("b", ⟨1, false⟩)])] (by decide)

/-- C8 counterexample: a successful run whose training input file contains a
quoted field writes a validated training file that is not byte-identical to
the input: the quotes are stripped by the parse and serialize round trip. -/
theorem validated_output_not_byte_identical :
    initiate_data_validation schemaW ks_2samp configW ingestW fsW =
      (.ok ⟨true, "valid_train.csv", "valid_test.csv", none, none, "report.yaml"⟩,
       [("report.yaml", .yamlReport [("a", ⟨1, false⟩)]),
        ("valid_train.csv", .csvFile "a\nx\n"),
        ("valid_test.csv", .csvFile "a\nx\n")]) ∧
    fsW "train.csv" = some "a\n\"x\"\n" ∧
    ("a\nx\n" : String) ≠ "a\n\"x\"\n" :=
  ⟨by decide, by decide, by decide⟩

/-- C8 amended: the validated outputs are the to_csv serialization (header
row, comma-separated) of the parsed input tables, written after the drift
report, and are not in general byte-identical to the raw input files; what
does hold of re-running is exact reproducibility: a second run over a file
system agreeing on the two input paths returns the same result and overwrites
the outputs with byte-identical content. -/
theorem outputs_serialized_and_rerun_identical
    (schema : SchemaConfig) (ks : KS) (config : DataValidationConfig)
    (ingestion : DataIngestionArtifacts) (fs fs' : String → Option String) :
    (∀ art ws train_df test_df,
      read_data fs ingestion.trained_file_path = .ok train_df →
      read_data fs ingestion.test_file_path = .ok test_df →
      initiate_data_validation schema ks config ingestion fs = (.ok art, ws) →
      ∃ report,
        ws = [(config.drift_report_file_path, .yamlReport report),
              (config.valid_train_file_path, .csvFile (toCsv train_df)),
              (config.valid_test_file_path, .csvFile (toCsv test_df))]) ∧
    (fs' ingestion.trained_file_path = fs ingestion.trained_file_path →
     fs' ingestion.test_file_path = fs ingestion.test_file_path →
     initiate_data_validation schema ks config ingestion fs' =
       initiate_data_validation schema ks config ingestion fs) := by
  constructor
  · intro art ws train_df test_df hr1 hr2 h
    obtain ⟨tdf, sdf, status, report, hh1, hh2, hdet, hws, _⟩ :=
      initiate_ok_shape schema ks config ingestion fs art ws h
    rw [hh1] at hr1
    rw [hh2] at hr2
    injection hr1 with e1
    injection hr2 with e2
    subst e1
    subst e2
    exact ⟨report, hws⟩
  · exact initiate_congr_fs schema ks config ingestion fs fs'

/-- Witness for C8 at the concrete successful run over fsW. -/
theorem outputs_serialized_and_rerun_identical_witness :
    ∃ report,
      ([("report.yaml", FileContent.yamlReport [("a", ⟨1, false⟩)]),
        ("valid_train.csv", FileContent.csvFile "a\nx\n"),
        ("valid_test.csv", FileContent.csvFile "a\nx\n")] :
          List (String × FileContent)) =
        [(configW.drift_report_file_path, .yamlReport report),
         (configW.valid_train_file_path, .csvFile (toCsv ⟨[("a", [Value.str "x"])]⟩)),
         (configW.valid_test_file_path, .csvFile (toCsv ⟨[("a", [Value.str "x"])]⟩))] :=
  (outputs_serialized_and_rerun_identical schemaW ks_2samp configW ingestW fsW fsW).1
    ⟨true, "valid_train.csv", "valid_test.csv", none, none, "report.yaml"⟩
    [("report.yaml", FileContent.yamlReport [("a", ⟨1, false⟩)]),
     ("valid_train.csv", FileContent.csvFile "a\nx\n"),
     ("valid_test.csv", FileContent.csvFile "a\nx\n")]
    ⟨[("a", [Value.str "x"])]⟩ ⟨[("a", [Value.str "x"])]⟩
    (by decide) (by decide) (by decide)

/-- C9: every successful run returns exactly one result record, and its
invalid_train_file_path and invalid_test_file_path fields are None while the
valid and report paths are the configured ones: no code path produces an
invalid split. -/
theorem result_record_invalid_fields_absent
    (schema : SchemaConfig) (ks : KS) (config : DataValidationConfig)
    (ingestion : DataIngestionArtifacts) (fs : String → Option String)
    (art : DataValidationArtifacts) (ws : List (String × FileContent))
    (h : initiate_data_validation schema ks config ingestion fs = (.ok art, ws)) :
    art.invalid_train_file_path = none ∧ art.invalid_test_file_path = none ∧
    art.valid_train_file_path = config.valid_train_file_path ∧
    art.valid_test_file_path = config.valid_test_file_path ∧
    art.drift_report_file_path = config.drift_report_file_path := by
  obtain ⟨tdf, sdf, status, report, _, _, _, _, hart⟩ :=
    initiate_ok_shape schema ks config ingestion fs art ws h
  rw [hart]
  exact ⟨rfl, rfl, rfl, rfl, rfl⟩

/-- Witness for C9 at the concrete successful run over fsW. -/
theorem result_record_invalid_fields_absent_witness :
    (DataValidationArtifacts.mk true "valid_train.csv" "valid_test.csv" none none
        "report.yaml").invalid_train_file_path = none ∧
    (DataValidationArtifacts.mk true "valid_train.csv" "valid_test.csv" none none
        "report.yaml").invalid_test_file_path = none ∧
    (DataValidationArtifacts.mk true "valid_train.csv" "valid_test.csv" none none
        "report.yaml").valid_train_file_path = configW.valid_train_file_path ∧
    (DataValidationArtifacts.mk true "valid_train.csv" "valid_test.csv" none none
        "report.yaml").valid_test_file_path = configW.valid_test_file_path ∧
    (DataValidationArtifacts.mk true "valid_train.csv" "valid_test.csv" none none
        "report.yaml").drift_report_file_path = configW.drift_report_file_path :=
  result_record_invalid_fields_absent schemaW ks_2samp configW ingestW fsW
    ⟨true, "valid_train.csv", "valid_test.csv", none, none, "report.yaml"⟩
    [("report.yaml", .yamlReport [("a", ⟨1, false⟩)]),
     ("valid_train.csv", .csvFile "a\nx\n"),
     ("valid_test.csv", .csvFile "a\nx\n")]
    (by decide)

/-- C10: every exception escaping a public method of the validator is a
NetworkSecurityException, and when the failure originates inside a helper
method (here the column-count check, raising a KeyError on a schema document
without a columns key), the caller of initiate_data_validation receives a
NetworkSecurityException whose carried error_message is itself the inner
NetworkSecurityException: the original cause is wrapped twice. -/
theorem exceptions_wrapped_and_double_wrapped
    (schema : SchemaConfig) (ks : KS) (config : DataValidationConfig)
    (ingestion : DataIngestionArtifacts) (fs : String → Option String) :
    (∀ p e, read_data fs p = .error e → ∃ e1, e = .networkSecurityException e1) ∧
    (∀ df e, validate_number_of_columns schema df = .error e →
      ∃ e1, e = .networkSecurityException e1) ∧
    (∀ df e, validate_required_columns schema df = .error e →
      ∃ e1, e = .networkSecurityException e1) ∧
    (∀ path base_df current_df t e ws,
      detect_dataset_drift ks path base_df current_df t = (.error e, ws) →
      ∃ e1, e = .networkSecurityException e1) ∧
    (∀ e, (initiate_data_validation schema ks config ingestion fs).1 = .error e →
      ∃ e1, e = .networkSecurityException e1) ∧
    (∀ train_df test_df, read_data fs ingestion.trained_file_path = .ok train_df →
      read_data fs ingestion.test_file_path = .ok test_df → schema.columns = none →
      (initiate_data_validation schema ks config ingestion fs).1 =
        .error (.networkSecurityException (.networkSecurityException (.keyError "columns")))) := by
  refine ⟨read_data_error_nse fs, validate_number_error_nse schema,
    validate_required_error_nse schema, ?_,
    initiate_error_nse schema ks config ingestion fs,
    fun train_df test_df h1 h2 hc =>
      initiate_columns_missing schema ks config ingestion fs train_df test_df h1 h2 hc⟩
  intro path base_df current_df t e ws h
  obtain ⟨_, e0, he, _⟩ := detect_error_shape ks path base_df current_df t e ws h
  exact ⟨e0, he⟩

/-- Witness for C10: a schema document without a columns key makes the
column-count check raise inside the helper, and the caller receives the
KeyError wrapped twice in NetworkSecurityException. -/
theorem exceptions_wrapped_and_double_wrapped_witness :
    (initiate_data_validation ⟨none⟩ ks_2samp configW ingestW fsW).1 =
      .error (.networkSecurityException (.networkSecurityException (.keyError "columns"))) :=
  (exceptions_wrapped_and_double_wrapped ⟨none⟩ ks_2samp configW ingestW fsW).2.2.2.2.2
    ⟨[("a", [Value.str "x"])]⟩ ⟨[("a", [Value.str "x"])]⟩ (by decide) (by decide) rfl

end NetSec
